import Mathlib

/-!
A shallow embedding of the FUSE session core of `fuse-async`
(`src/session.rs`, `src/session/reply.rs`), together with proofs about
its reply framing, INIT handshake, interrupt and notify correlation
tables, exit semantics and the reply-size bound.

Machine integers are modelled as `Nat` (resp. `Int` for the `error`
field), with explicit `% 2^32` / `% 2^64` where the Rust code casts or
wraps.  Byte sequences are `List Nat` with every element a byte value;
the target is little-endian (x86-64), so "native-endian" serialisation
is little-endian here.  Fallible operations return `Option`.
-/

namespace FuseAsync

/-- `MAX_WRITE_SIZE` from `src/session.rs`: 16 MiB. -/
def MAX_WRITE_SIZE : Nat := 16 * 1024 * 1024

/-! errno constants of the target platform (Linux), used by the code via
`libc`. -/

def EIO : Nat := 5
def EINTR : Nat := 4
def ENODEV : Nat := 19
def ERANGE : Nat := 34
def ENOSYS : Nat := 38
def EPROTO : Nat := 71

/-! ## Little-endian byte serialisation -/

/-- Serialise a `u32` value to its four little-endian bytes. -/
def u32le (n : Nat) : List Nat :=
  [n % 256, n / 256 % 256, n / 65536 % 256, n / 16777216 % 256]

/-- Serialise a `u64` value to its eight little-endian bytes. -/
def u64le (n : Nat) : List Nat :=
  u32le (n % 2 ^ 32) ++ u32le (n / 2 ^ 32 % 2 ^ 32)

/-- Serialise an `i32` value (two's complement) to its four
little-endian bytes. -/
def i32le (e : Int) : List Nat :=
  u32le (e % 2 ^ 32).toNat

/-- Read a little-endian byte list back as a natural number. -/
def readLE (bs : List Nat) : Nat :=
  bs.foldr (fun b acc => b + 256 * acc) 0

/-- Interpret a `u32` bit pattern as a two's-complement `i32`. -/
def decodeI32 (n : Nat) : Int :=
  if n < 2 ^ 31 then (n : Int) else (n : Int) - 2 ^ 32

/-! ## `fuse_out_header` and `send_msg` (`src/session/reply.rs`) -/

/-- `fuse_out_header`: `{u32 len; i32 error; u64 unique}`, 16 bytes. -/
structure FuseOutHeader where
  len : Nat
  error : Int
  unique : Nat
  deriving Repr, DecidableEq

/-- `Payload::as_bytes` for `fuse_out_header`: the 16 native-endian
bytes of the header. -/
def FuseOutHeader.as_bytes (h : FuseOutHeader) : List Nat :=
  u32le h.len ++ i32le h.error ++ u64le h.unique

/-- Decode the 16 leading header bytes of a written frame back into the
three header fields `(len, error, unique)`. -/
def decodeOutHeader : List Nat → Option (Nat × Int × Nat)
  | b0 :: b1 :: b2 :: b3 :: b4 :: b5 :: b6 :: b7 ::
    b8 :: b9 :: b10 :: b11 :: b12 :: b13 :: b14 :: b15 :: _ =>
      some (readLE [b0, b1, b2, b3],
            decodeI32 (readLE [b4, b5, b6, b7]),
            readLE [b8, b9, b10, b11, b12, b13, b14, b15])
  | _ => none

/-- `send_msg(writer, unique, error, data)` from `src/session/reply.rs`.
Computes `len = u32::try_from(size_of::<fuse_out_header>() + data_len)`
(failing with an `InvalidData` error — modelled as `none` — when the sum
does not fit in `u32`), then writes the header followed by all payload
slices with a single vectored write.  The result is the byte sequence
written to the writer. -/
def send_msg (unique : Nat) (error : Int) (data : List (List Nat)) : Option (List Nat) :=
  let data_len : Nat := (data.map List.length).sum
  if 16 + data_len ≤ 2 ^ 32 - 1 then
    let out_header : FuseOutHeader := ⟨16 + data_len, error, unique⟩
    some (out_header.as_bytes ++ data.flatten)
  else
    none

/-! ## `Context` reply methods (`src/session.rs`).

A `Context` holds the request's `fuse_in_header`; its reply helpers
forward to `send_msg` with the request's `unique`.  We model each
method as a function of the `unique` value. -/

/-- `Context::reply_vectored(data)`: a success reply (`error = 0`). -/
def Context.reply_vectored (unique : Nat) (data : List (List Nat)) : Option (List Nat) :=
  send_msg unique 0 data

/-- `Context::reply(data)`: a success reply with a single slice. -/
def Context.reply (unique : Nat) (data : List Nat) : Option (List Nat) :=
  Context.reply_vectored unique [data]

/-- `Context::reply_err(error)`: `send_msg(writer, unique, -error, &[])`. -/
def Context.reply_err (unique : Nat) (error : Nat) : Option (List Nat) :=
  send_msg unique (-(error : Int)) []

/-! ## `ReplyData` (`src/session/reply.rs`) -/

/-- `ReplyData::data_vectored(cx, data)`.  The length is computed in
`u32` arithmetic — each slice length is cast with `as u32` (truncating)
and the sum is taken in `u32` — faithfully modelled by `% 2^32`.  If it
does not exceed the kernel-requested `size`, the payload is emitted as
a success reply; otherwise the reply is an `ERANGE` error. -/
def ReplyData.data_vectored (size : Nat) (unique : Nat) (data : List (List Nat)) :
    Option (List Nat) :=
  let len : Nat := ((data.map (fun t => t.length % 2 ^ 32)).sum) % 2 ^ 32
  if len ≤ size then
    Context.reply_vectored unique data
  else
    Context.reply_err unique ERANGE

/-- `ReplyData::data(cx, data)`: the single-slice form. -/
def ReplyData.data (size : Nat) (unique : Nat) (data : List Nat) : Option (List Nat) :=
  ReplyData.data_vectored size unique [data]

/-! ## Kernel ABI structs and constants used by the session

The ABI crate (`polyfuse_sys`) is a fixed external data contract; the
constants below are the Linux x86-64 values referenced through `libc`
and the kernel headers. -/

def FUSE_LK_FLOCK : Nat := 2
def F_RDLCK : Nat := 0
def F_WRLCK : Nat := 1
def F_UNLCK : Nat := 2
def LOCK_SH : Nat := 1
def LOCK_EX : Nat := 2
def LOCK_NB : Nat := 4
def LOCK_UN : Nat := 8
def FUSE_NOTIFY_RETRIEVE : Nat := 5

/-- `fuse_in_header`: `{u32 len; u32 opcode; u64 unique; u64 nodeid;
u32 uid; u32 gid; u32 pid; u32 padding}`. -/
structure FuseInHeader where
  len : Nat := 0
  opcode : Nat := 0
  unique : Nat := 0
  nodeid : Nat := 0
  uid : Nat := 0
  gid : Nat := 0
  pid : Nat := 0
  deriving Repr, DecidableEq

/-- `fuse_init_in`: the INIT request argument. -/
structure FuseInitIn where
  major : Nat := 0
  minor : Nat := 0
  max_readahead : Nat := 0
  flags : Nat := 0
  deriving Repr, DecidableEq

/-- `fuse_init_out`; `Default` zeroes every field. -/
structure FuseInitOut where
  major : Nat := 0
  minor : Nat := 0
  max_readahead : Nat := 0
  flags : Nat := 0
  max_background : Nat := 0
  congestion_threshold : Nat := 0
  max_write : Nat := 0
  time_gran : Nat := 0
  deriving Repr, DecidableEq

/-- `fuse_file_lock`: `{u64 start; u64 end; u32 typ; u32 pid}`.  The
`end` field is named `end_` because `end` is reserved in Lean. -/
structure FuseFileLock where
  start : Nat := 0
  end_ : Nat := 0
  typ : Nat := 0
  pid : Nat := 0
  deriving Repr, DecidableEq

/-- `fuse_lk_in`: the Getlk/Setlk request argument. -/
structure FuseLkIn where
  fh : Nat := 0
  owner : Nat := 0
  lk : FuseFileLock := {}
  lk_flags : Nat := 0
  deriving Repr, DecidableEq

/-- `fuse_interrupt_in`: the INTERRUPT request argument. -/
structure FuseInterruptIn where
  unique : Nat := 0
  deriving Repr, DecidableEq

/-- `fuse_notify_retrieve_in`: the NOTIFY_REPLY request argument
(fields not read by the session are omitted). -/
structure FuseNotifyRetrieveIn where
  offset : Nat := 0
  size : Nat := 0
  deriving Repr, DecidableEq

/-- `fuse_notify_retrieve_out`: the NOTIFY_RETRIEVE notification
payload. -/
structure FuseNotifyRetrieveOut where
  notify_unique : Nat := 0
  nodeid : Nat := 0
  offset : Nat := 0
  size : Nat := 0
  deriving Repr, DecidableEq

/-! ## Decoded requests and operations

`request.rs` (the decoder) is not part of the sources at hand; the
shape of `RequestKind` is reconstructed from the exhaustive `match` in
`Session::process` in `src/session.rs`.  Only the variants the proofs
below exercise are carried; every remaining opcode arm of the source
follows the same `run_op!` pattern as `Lookup` and is omitted. -/

inductive RequestKind where
  | init (arg : FuseInitIn)
  | destroy
  | interrupt (arg : FuseInterruptIn)
  | lookup (name : List Nat)
  | setlk (arg : FuseLkIn) (sleep : Bool)
  | notifyReply (arg : FuseNotifyRetrieveIn)
  | unknown
  deriving Repr, DecidableEq

/-- The `Operation` variants delivered to the user filesystem that the
proofs below exercise. -/
inductive Operation where
  | lookup (parent : Nat) (name : List Nat)
  | flock (ino : Nat) (fh : Nat) (owner : Nat) (op : Nat)
  | setlk (ino : Nat) (fh : Nat) (owner : Nat) (lk : FuseFileLock) (sleep : Bool)
  deriving Repr, DecidableEq

/-! ## Session state (`src/session.rs`)

`Session` holds the negotiated parameters, the `SessionState` behind a
mutex (`exited`, the pending-interrupts table `remains`, the
`interrupted` set), the `notify_unique` counter and the
pending-retrieves table `notify_remains`.  The two tables map a `u64`
unique to a one-shot sender; since the senders carry no data, each
table is modelled by its key set (a duplicate-free list).  `insert`
replaces an existing binding, so the key set uses `List.insert`;
`remove` is `List.erase`. -/

structure Session where
  proto_major : Nat
  proto_minor : Nat
  max_readahead : Nat
  exited : Bool
  remains : List Nat
  interrupted : List Nat
  notify_unique : Nat
  notify_remains : List Nat
  deriving Repr, DecidableEq

/-- `Session::enable_interrupt(unique)` (reached from
`Context::on_interrupt`): insert `(unique, tx)` into the
pending-interrupts table and hand the receiver to the handler. -/
def Session.enable_interrupt (s : Session) (unique : Nat) : Session :=
  { s with remains := s.remains.insert unique }

/-- `Session::send_interrupt(unique)`: if the pending-interrupts table
holds a sender for `unique`, remove it, add `unique` to the
`interrupted` set and fire the one-shot; otherwise do nothing. -/
def Session.send_interrupt (s : Session) (unique : Nat) : Session :=
  if unique ∈ s.remains then
    { s with
      remains := s.remains.erase unique
      interrupted := s.interrupted.insert unique }
  else
    s

/-- `Session::send_notify_reply(unique, offset, data)`: if the
pending-retrieves table holds a slot for `unique`, remove it and
complete it with `(offset, data)`.  The second component is the value
delivered to the awaiter of that slot (`none` when no slot was
registered under `unique`). -/
def Session.send_notify_reply (s : Session) (unique : Nat) (offset : Nat)
    (data : List Nat) : Session × Option (Nat × List Nat) :=
  if unique ∈ s.notify_remains then
    ({ s with notify_remains := s.notify_remains.erase unique }, some (offset, data))
  else
    (s, none)

/-- The primitive steps `Session::notify_retrieve` performs, in program
order. -/
inductive NotifyAction where
  | alloc (u : Nat)
  | registerSlot (u : Nat)
  | sendFrame (code : Nat) (out : FuseNotifyRetrieveOut)
  deriving Repr, DecidableEq

/-- `Session::notify_retrieve(writer, ino, offset, size)`: allocate
`notify_unique` with `fetch_add(1)` (which returns the previous counter
value and wraps at `2^64`), register a fresh one-shot slot in the
pending-retrieves table, then send the NOTIFY_RETRIEVE frame.  Returns
the new session state, the allocated unique (the key of the returned
`NotifyRetrieve` future) and the trace of primitive steps in program
order. -/
def Session.notify_retrieve (s : Session) (ino : Nat) (offset : Nat) (size : Nat) :
    Session × Nat × List NotifyAction :=
  let notify_unique := s.notify_unique
  let s' : Session :=
    { s with
      notify_unique := (s.notify_unique + 1) % 2 ^ 64
      notify_remains := s.notify_remains.insert notify_unique }
  (s', notify_unique,
    [NotifyAction.alloc notify_unique,
     NotifyAction.registerSlot notify_unique,
     NotifyAction.sendFrame FUSE_NOTIFY_RETRIEVE
       { notify_unique := notify_unique, nodeid := ino, offset := offset, size := size }])

/-! ## Dispatch (`Session::process`) -/

/-- What one call to `Session::process` did with its request. -/
inductive Dispatch where
  /-- `process` returned `Ok(())` before dispatching: no handler was
  invoked and no reply frame was written. -/
  | dropped
  /-- The session itself wrote a reply frame (the bytes produced by
  `send_msg`). -/
  | replied (msg : Option (List Nat))
  /-- The user filesystem handler was invoked with the operation. -/
  | handlerInvoked (op : Operation)
  /-- An INTERRUPT request, handled by `send_interrupt`; no reply. -/
  | interruptHandled
  /-- A NOTIFY_REPLY request, routed to `send_notify_reply` together
  with the value delivered to the registered awaiter; no reply. -/
  | notifyReplyHandled (completed : Option (Nat × List Nat))
  /-- The source panics (`NotifyReply` without trailing data). -/
  | aborted
  deriving Repr, DecidableEq

/-- `Session::process(fs, req, data, writer)` from `src/session.rs`.

`fsEffect` models the session-visible effect of the user filesystem
handler `fs.call(cx, op)`: the handler may touch the session only
through `Context::on_interrupt` (that is, `Session::enable_interrupt`).
The result pairs the session state after the call with what `process`
did (`Dispatch`).  Transcribed arm by arm from the source `match`; the
omitted opcode arms are all of the same `run_op!` shape as `Lookup`. -/
def Session.process (s : Session) (fsEffect : Operation → Session → Session)
    (header : FuseInHeader) (kind : RequestKind) (data : Option (List Nat)) :
    Session × Dispatch :=
  if s.exited then
    -- "The sesson has already been exited": return Ok(()).
    (s, Dispatch.dropped)
  else if header.unique ∈ s.interrupted then
    -- "The request was interrupted": remove and return Ok(()).
    ({ s with interrupted := s.interrupted.erase header.unique }, Dispatch.dropped)
  else
    let ino := header.nodeid
    match kind with
    | RequestKind.init _ =>
        (s, Dispatch.replied (Context.reply_err header.unique EIO))
    | RequestKind.destroy =>
        ({ s with exited := true }, Dispatch.replied (Context.reply header.unique []))
    | RequestKind.interrupt arg =>
        (s.send_interrupt arg.unique, Dispatch.interruptHandled)
    | RequestKind.lookup name =>
        let op := Operation.lookup ino name
        (fsEffect op s, Dispatch.handlerInvoked op)
    | RequestKind.setlk arg sleep =>
        if arg.lk_flags &&& FUSE_LK_FLOCK ≠ 0 then
          if arg.lk.typ = F_RDLCK ∨ arg.lk.typ = F_WRLCK ∨ arg.lk.typ = F_UNLCK then
            let base :=
              if arg.lk.typ = F_RDLCK then LOCK_SH
              else if arg.lk.typ = F_WRLCK then LOCK_EX
              else LOCK_UN
            let lockOp := if sleep then base else base ||| LOCK_NB
            let op := Operation.flock ino arg.fh arg.owner lockOp
            (fsEffect op s, Dispatch.handlerInvoked op)
          else
            (s, Dispatch.replied (Context.reply_err header.unique EIO))
        else
          let op := Operation.setlk ino arg.fh arg.owner arg.lk sleep
          (fsEffect op s, Dispatch.handlerInvoked op)
    | RequestKind.notifyReply arg =>
        match data with
        | some d =>
            let r := s.send_notify_reply header.unique arg.offset d
            (r.1, Dispatch.notifyReplyHandled r.2)
        | none => (s, Dispatch.aborted)
    | RequestKind.unknown =>
        (s, Dispatch.replied (Context.reply_err header.unique ENOSYS))

/-! ## INIT handshake (`Session::start`) -/

/-- One message sent by `Session::start`: `send_msg(io, unique, error,
payload)` where the payload is either `[init_out.as_bytes()]` or
empty. -/
structure StartMsg where
  unique : Nat
  error : Int
  initOut : Option FuseInitOut
  deriving Repr, DecidableEq

/-- The outcome of one iteration of the receive loop in
`Session::start`. -/
inductive StartResult where
  /-- A reply was sent and the loop `continue`s with the next frame. -/
  | continueLoop (sent : StartMsg)
  /-- An error reply was sent and `start` returns `Err(errno)`. -/
  | failed (sent : StartMsg) (errno : Nat)
  /-- A success reply was sent and `start` returns the session. -/
  | established (sent : StartMsg) (session : Session)
  deriving Repr, DecidableEq

/-- One iteration of the receive loop of `Session::start`
(`src/session.rs`), acting on a decoded frame. -/
def Session.startStep (header : FuseInHeader) (kind : RequestKind) : StartResult :=
  match kind with
  | RequestKind.init arg =>
      let init_out : FuseInitOut := {}
      if arg.major > 7 then
        -- wait for a second INIT request with a 7.X version.
        StartResult.continueLoop { unique := header.unique, error := 0, initOut := some init_out }
      else if arg.major < 7 ∨ (arg.major = 7 ∧ arg.minor < 6) then
        StartResult.failed
          { unique := header.unique, error := -(EPROTO : Int), initOut := none } EPROTO
      else
        let init_out : FuseInitOut :=
          { init_out with max_readahead := arg.max_readahead, max_write := MAX_WRITE_SIZE }
        StartResult.established
          { unique := header.unique, error := 0, initOut := some init_out }
          { proto_major := arg.major
            proto_minor := arg.minor
            max_readahead := arg.max_readahead
            exited := false
            remains := []
            interrupted := []
            notify_unique := 0
            notify_remains := [] }
  | _ =>
      -- ignoring an operation before init.
      StartResult.continueLoop
        { unique := header.unique, error := -( EIO : Int), initOut := none }

/-! ## `ReplyAttr` / `ReplyEntry` (`src/session/reply.rs`) -/

/-- `fuse_attr`: only the `ino` field is read by the reply encoder
(`fuse_entry_out.nodeid = attr.ino`); the remaining attribute fields
are irrelevant to the properties proved here and are elided. -/
structure FuseAttr where
  ino : Nat := 0
  deriving Repr, DecidableEq

/-- `fuse_attr_out`; `Default` zeroes every field not named in the
struct literal. -/
structure FuseAttrOut where
  attr_valid : Nat := 0
  attr_valid_nsec : Nat := 0
  dummy : Nat := 0
  attr : FuseAttr := {}
  deriving Repr, DecidableEq

/-- `fuse_entry_out`. -/
structure FuseEntryOut where
  nodeid : Nat := 0
  generation : Nat := 0
  entry_valid : Nat := 0
  attr_valid : Nat := 0
  entry_valid_nsec : Nat := 0
  attr_valid_nsec : Nat := 0
  attr : FuseAttr := {}
  deriving Repr, DecidableEq

/-- `ReplyAttr`: carries the attribute validity timeout
`attr_valid: (u64, u32)`, initialised to `(0, 0)`. -/
structure ReplyAttr where
  attr_valid : Nat × Nat
  deriving Repr, DecidableEq

/-- `ReplyAttr::new()`. -/
def ReplyAttr.new : ReplyAttr := ⟨(0, 0)⟩

/-- `ReplyAttr::attr_valid(secs, nsecs)` (the setter). -/
def ReplyAttr.setAttrValid (r : ReplyAttr) (secs : Nat) (nsecs : Nat) : ReplyAttr :=
  { r with attr_valid := (secs, nsecs) }

/-- `ReplyAttr::attr(cx, attr)`: the `fuse_attr_out` struct whose bytes
are handed to `cx.reply`.  The struct literal names only `attr` and
`attr_valid: self.attr_valid.0`; every other field — `attr_valid_nsec`
included — comes from `Default`. -/
def ReplyAttr.attr (r : ReplyAttr) (a : FuseAttr) : FuseAttrOut :=
  { attr := a, attr_valid := r.attr_valid.1 }

/-- `ReplyEntry`: carries `entry_valid` and `attr_valid` timeouts,
both initialised to `(0, 0)`. -/
structure ReplyEntry where
  entry_valid : Nat × Nat
  attr_valid : Nat × Nat
  deriving Repr, DecidableEq

/-- `ReplyEntry::new()`. -/
def ReplyEntry.new : ReplyEntry := ⟨(0, 0), (0, 0)⟩

/-- `ReplyEntry::attr_valid(sec, nsec)` (the setter). -/
def ReplyEntry.setAttrValid (r : ReplyEntry) (sec : Nat) (nsec : Nat) : ReplyEntry :=
  { r with attr_valid := (sec, nsec) }

/-- `ReplyEntry::entry_valid(sec, nsec)` (the setter). -/
def ReplyEntry.setEntryValid (r : ReplyEntry) (sec : Nat) (nsec : Nat) : ReplyEntry :=
  { r with entry_valid := (sec, nsec) }

/-- `ReplyEntry::entry(cx, attr, generation)`: the `fuse_entry_out`
struct whose bytes are handed to `cx.reply`.  Both the seconds and the
nanoseconds components of the two timeouts are named in the struct
literal. -/
def ReplyEntry.entry (r : ReplyEntry) (a : FuseAttr) (generation : Nat) : FuseEntryOut :=
  { nodeid := a.ino
    generation := generation
    entry_valid := r.entry_valid.1
    entry_valid_nsec := r.entry_valid.2
    attr_valid := r.attr_valid.1
    attr_valid_nsec := r.attr_valid.2
    attr := a }

/-! # Theorems -/

/-! ## Helper lemmas on the byte serialisation -/

lemma readLE_u32le (n : Nat) : readLE (u32le n) = n % 2 ^ 32 := by
  simp only [readLE, u32le, List.foldr]
  omega

lemma readLE_u64le (n : Nat) : readLE (u64le n) = n % 2 ^ 64 := by
  simp only [readLE, u64le, u32le, List.foldr_append, List.foldr]
  omega

lemma readLE_i32le (E : Int) (h1 : -(2 ^ 31) ≤ E) (h2 : E < 2 ^ 31) :
    decodeI32 (readLE (i32le E)) = E := by
  simp only [i32le, readLE_u32le, decodeI32]
  split <;> omega

lemma as_bytes_length (h : FuseOutHeader) : h.as_bytes.length = 16 := by
  simp [FuseOutHeader.as_bytes, u32le, u64le, i32le]

/-- Decoding the front of a written frame recovers the header fields. -/
lemma decodeOutHeader_as_bytes (h : FuseOutHeader) (rest : List Nat)
    (hlen : h.len < 2 ^ 32) (hE1 : -(2 ^ 31) ≤ h.error) (hE2 : h.error < 2 ^ 31)
    (hU : h.unique < 2 ^ 64) :
    decodeOutHeader (h.as_bytes ++ rest) = some (h.len, h.error, h.unique) := by
  have e1 := readLE_u32le h.len
  have e2 := readLE_i32le h.error hE1 hE2
  have e3 := readLE_u64le h.unique
  simp only [FuseOutHeader.as_bytes, u32le, u64le, i32le, List.cons_append,
    List.nil_append, decodeOutHeader] at *
  rw [Nat.mod_eq_of_lt hlen] at e1
  rw [Nat.mod_eq_of_lt hU] at e3
  rw [e1, e2, e3]

/-! ## C1 — reply framing -/

/-- C1: a reply emitted through `send_msg` for unique `U`, error code
`E` and payload slices `P₁..Pₙ` writes exactly the 16-byte
native-endian header `{len = 16 + Σ|Pᵢ|, error = E, unique = U}`
followed by `P₁..Pₙ` concatenated in order (the header bytes decode
back to the three fields); a successful reply goes through
`Context::reply_vectored`, which passes `error = 0`; and
`Context::reply_err(e)` writes the 16-byte header
`{len = 16, error = -e, unique = U}` and no payload bytes. -/
theorem C1_reply_framing (U : Nat) (E : Int) (P : List (List Nat)) (e : Nat)
    (hlen : 16 + (P.map List.length).sum ≤ 2 ^ 32 - 1)
    (hU : U < 2 ^ 64) (hE1 : -(2 ^ 31) ≤ E) (hE2 : E < 2 ^ 31) (he : e ≤ 2 ^ 31) :
    send_msg U E P =
      some ((⟨16 + (P.map List.length).sum, E, U⟩ : FuseOutHeader).as_bytes ++ P.flatten) ∧
    (⟨16 + (P.map List.length).sum, E, U⟩ : FuseOutHeader).as_bytes.length = 16 ∧
    decodeOutHeader
        ((⟨16 + (P.map List.length).sum, E, U⟩ : FuseOutHeader).as_bytes ++ P.flatten) =
      some (16 + (P.map List.length).sum, E, U) ∧
    Context.reply_vectored U P = send_msg U 0 P ∧
    Context.reply_err U e = some ((⟨16, -(e : Int), U⟩ : FuseOutHeader).as_bytes) ∧
    decodeOutHeader ((⟨16, -(e : Int), U⟩ : FuseOutHeader).as_bytes) =
      some (16, -(e : Int), U) := by
  refine ⟨?_, as_bytes_length _, ?_, rfl, ?_, ?_⟩
  · simp [send_msg]
    omega
  · exact decodeOutHeader_as_bytes _ _
      (by show 16 + (P.map List.length).sum < 2 ^ 32; omega) hE1 hE2 hU
  · simp [Context.reply_err, send_msg]
  · have h := decodeOutHeader_as_bytes (⟨16, -(e : Int), U⟩ : FuseOutHeader) []
      (by norm_num)
      (by show -(2 ^ 31 : Int) ≤ -(e : Int); omega)
      (by show -(e : Int) < 2 ^ 31; omega) hU
    simpa using h

/-- Witness for C1 at `unique = 42`, `error = 4`, payload `"hello"`
(re-checking the byte-level test vectors of the source). -/
theorem C1_reply_framing_witness :
    (42 : Nat) < 2 ^ 64 ∧
    send_msg 42 4 [[104, 101, 108, 108, 111]] =
      some [21, 0, 0, 0, 4, 0, 0, 0, 42, 0, 0, 0, 0, 0, 0, 0,
            104, 101, 108, 108, 111] := by
  refine ⟨by norm_num, ?_⟩
  have h := (C1_reply_framing 42 4 [[104, 101, 108, 108, 111]] 5
    (by norm_num) (by norm_num) (by norm_num) (by norm_num) (by norm_num)).1
  rw [h]
  decide

/-! ## C2 — INIT handshake -/

/-- C2: for the first decoded frame of `Session::start`:
(1) an INIT with `major > 7` is answered with a zeroed `init_out`
(success) and the receive loop continues; (2) an INIT with `major < 7`,
or `major = 7` and `minor < 6`, is answered with `-EPROTO` and `start`
fails with `EPROTO`; (3) an INIT with `major = 7` and `minor ≥ 6`
records `proto_major`, `proto_minor` and `max_readahead`, replies
success with `init_out` echoing `max_readahead` and carrying
`max_write = MAX_WRITE_SIZE` (16 MiB), and returns the session;
(4) a first frame that is not INIT is answered with `-EIO` and the
loop continues. -/
theorem C2_init_handshake (header : FuseInHeader) (arg : FuseInitIn) (kind : RequestKind)
    (hnotinit : ∀ a, kind ≠ RequestKind.init a) :
    (arg.major > 7 →
      Session.startStep header (RequestKind.init arg) =
        StartResult.continueLoop
          { unique := header.unique, error := 0, initOut := some {} }) ∧
    (arg.major < 7 ∨ (arg.major = 7 ∧ arg.minor < 6) →
      Session.startStep header (RequestKind.init arg) =
        StartResult.failed
          { unique := header.unique, error := -(EPROTO : Int), initOut := none } EPROTO) ∧
    (arg.major = 7 → 6 ≤ arg.minor →
      Session.startStep header (RequestKind.init arg) =
        StartResult.established
          { unique := header.unique, error := 0,
            initOut := some { max_readahead := arg.max_readahead,
                              max_write := MAX_WRITE_SIZE } }
          { proto_major := arg.major
            proto_minor := arg.minor
            max_readahead := arg.max_readahead
            exited := false
            remains := []
            interrupted := []
            notify_unique := 0
            notify_remains := [] }) ∧
    (Session.startStep header kind =
      StartResult.continueLoop
        { unique := header.unique, error := -( EIO : Int), initOut := none }) := by
  refine ⟨?_, ?_, ?_, ?_⟩
  · intro h
    simp only [Session.startStep]
    rw [if_pos h]
  · intro h
    simp only [Session.startStep]
    rw [if_neg (by omega), if_pos h]
  · intro h1 h2
    simp only [Session.startStep]
    rw [if_neg (by omega), if_neg (by omega)]
  · cases kind with
    | init a => exact absurd rfl (hnotinit a)
    | destroy => rfl
    | interrupt a => rfl
    | lookup n => rfl
    | setlk a s => rfl
    | notifyReply a => rfl
    | unknown => rfl

/-- Witness for C2: an INIT frame with version 7.31 and
`max_readahead = 4096` at `unique = 2`, plus a non-INIT first frame. -/
theorem C2_init_handshake_witness :
    (∀ a, RequestKind.destroy ≠ RequestKind.init a) ∧
    ((7 : Nat) = 7) ∧ ((6 : Nat) ≤ 31) ∧
    Session.startStep { unique := 2 }
        (RequestKind.init { major := 7, minor := 31, max_readahead := 4096 }) =
      StartResult.established
        { unique := 2, error := 0,
          initOut := some { max_readahead := 4096, max_write := MAX_WRITE_SIZE } }
        { proto_major := 7
          proto_minor := 31
          max_readahead := 4096
          exited := false
          remains := []
          interrupted := []
          notify_unique := 0
          notify_remains := [] } ∧
    Session.startStep { unique := 2 } RequestKind.destroy =
      StartResult.continueLoop { unique := 2, error := -( EIO : Int), initOut := none } := by
  have hni : ∀ a, RequestKind.destroy ≠ RequestKind.init a := fun a => by
    intro h
    cases h
  have h := C2_init_handshake { unique := 2 }
    { major := 7, minor := 31, max_readahead := 4096 } RequestKind.destroy hni
  exact ⟨hni, rfl, by norm_num, h.2.2.1 rfl (by norm_num), h.2.2.2⟩

/-! ## C3 — interrupt before dispatch (code bug)

`Session::send_interrupt` adds the unique to the `interrupted` set only
inside the branch where a pending-interrupts entry already existed —
i.e. only when the target request has already been dispatched and its
handler has registered via `on_interrupt`.  An INTERRUPT that arrives
before its target is dispatched therefore changes nothing, and the
pre-dispatch interrupted-set check in `process` never fires for it: the
late request is dispatched to the handler (which then replies) instead
of being dropped.  The theorem below evaluates the code on the spec's
scenario S6. -/

/-- C3: evaluating scenario S6 on the code.  Processing
`INTERRUPT(arg.unique = 100)` while no handler has registered 100
leaves the session state unchanged — the interrupted set stays empty —
and the subsequent dispatch of the request with `unique = 100` invokes
the user handler instead of being dropped. -/
theorem C3_interrupt_before_dispatch_bug :
    let s0 : Session :=
      { proto_major := 7, proto_minor := 31, max_readahead := 4096,
        exited := false, remains := [], interrupted := [],
        notify_unique := 0, notify_remains := [] }
    let r1 := s0.process (fun _ s => s) { unique := 200 }
      (RequestKind.interrupt { unique := 100 }) none
    r1.1 = s0 ∧ r1.1.interrupted = [] ∧ r1.2 = Dispatch.interruptHandled ∧
    (r1.1.process (fun _ s => s) { unique := 100, nodeid := 1 }
        (RequestKind.lookup [97]) none).2 =
      Dispatch.handlerInvoked (Operation.lookup 1 [97]) := by
  decide

/-! ## C4 — pending-interrupts table entries outlive handler completion -/

/-- C4 counterexample: a request (unique 42) whose handler calls
`on_interrupt` and then completes without ever being interrupted.
After `Session::process` returns, the pending-interrupts table still
contains 42 — nothing in the completion path removes it — refuting the
claim that the table no longer contains that unique-id. -/
theorem C4_counterexample :
    let s0 : Session :=
      { proto_major := 7, proto_minor := 31, max_readahead := 4096,
        exited := false, remains := [], interrupted := [],
        notify_unique := 0, notify_remains := [] }
    let r := s0.process (fun _ s => s.enable_interrupt 42)
      { unique := 42, nodeid := 1 } (RequestKind.lookup [98]) none
    r.2 = Dispatch.handlerInvoked (Operation.lookup 1 [98]) ∧
    42 ∈ r.1.remains := by
  decide

/-- C4 (amended): an entry inserted into the pending-interrupts table
by `enable_interrupt` is removed only when an INTERRUPT frame for that
unique-id is processed (`send_interrupt` removes it and marks the
unique interrupted); an INTERRUPT for an unregistered unique changes
nothing; and handler completion does *not* remove the entry — after
`Session::process` returns for a request whose handler called
`on_interrupt` and was never interrupted, the table still contains that
unique-id. -/
theorem C4_pending_interrupts_lifecycle (s : Session) (u : Nat)
    (header : FuseInHeader) (name : List Nat)
    (hex : s.exited = false) (hint : header.unique ∉ s.interrupted) :
    (u ∈ s.remains →
      (s.send_interrupt u).remains = s.remains.erase u ∧
      u ∈ (s.send_interrupt u).interrupted) ∧
    (u ∉ s.remains → s.send_interrupt u = s) ∧
    header.unique ∈
      (s.process (fun _ s' => s'.enable_interrupt header.unique)
        header (RequestKind.lookup name) none).1.remains := by
  refine ⟨?_, ?_, ?_⟩
  · intro h
    simp [Session.send_interrupt, h, List.mem_insert_self]
  · intro h
    simp [Session.send_interrupt, h]
  · simp [Session.process, hex, hint, Session.enable_interrupt, List.mem_insert_self]

/-- Witness for C4 (amended) at a concrete session state. -/
theorem C4_pending_interrupts_lifecycle_witness :
    let s : Session :=
      { proto_major := 7, proto_minor := 31, max_readahead := 4096,
        exited := false, remains := [7], interrupted := [],
        notify_unique := 0, notify_remains := [] }
    s.exited = false ∧ (9 : Nat) ∉ s.interrupted ∧
    ((7 ∈ s.remains →
      (s.send_interrupt 7).remains = s.remains.erase 7 ∧
      7 ∈ (s.send_interrupt 7).interrupted) ∧
    ((7 : Nat) ∉ s.remains → s.send_interrupt 7 = s) ∧
    (9 : Nat) ∈
      (s.process (fun _ s' => s'.enable_interrupt 9)
        { unique := 9 } (RequestKind.lookup [99]) none).1.remains) := by
  refine ⟨rfl, by decide, ?_⟩
  exact C4_pending_interrupts_lifecycle _ 7 { unique := 9 } [99] rfl (by decide)

/-! ## C6 — exit semantics -/

/-- C6: processing a DESTROY request sets the session's `exited` flag
and writes an empty success reply (`header{len = 16, error = 0,
unique = U}`, no payload); and any request processed once `exited` is
true is silently dropped: `process` returns without invoking the user
handler and without writing any reply frame. -/
theorem C6_exit_semantics (s : Session) (fsE : Operation → Session → Session)
    (header : FuseInHeader) (data : Option (List Nat))
    (hex : s.exited = false) (hint : header.unique ∉ s.interrupted) :
    (s.process fsE header RequestKind.destroy data =
      ({ s with exited := true }, Dispatch.replied (Context.reply header.unique []))) ∧
    Context.reply header.unique [] =
      some ((⟨16, 0, header.unique⟩ : FuseOutHeader).as_bytes) ∧
    (∀ (s' : Session) (fsE' : Operation → Session → Session)
      (header' : FuseInHeader) (kind' : RequestKind) (data' : Option (List Nat)),
      s'.exited = true →
      s'.process fsE' header' kind' data' = (s', Dispatch.dropped)) := by
  refine ⟨?_, ?_, ?_⟩
  · simp [Session.process, hex, hint]
  · simp [Context.reply, Context.reply_vectored, send_msg]
  · intro s' fsE' header' kind' data' hex'
    simp [Session.process, hex']

/-- Witness for C6 at a concrete session state. -/
theorem C6_exit_semantics_witness :
    let s : Session :=
      { proto_major := 7, proto_minor := 31, max_readahead := 4096,
        exited := false, remains := [], interrupted := [],
        notify_unique := 0, notify_remains := [] }
    s.exited = false ∧ (5 : Nat) ∉ s.interrupted ∧
    (s.process (fun _ s' => s') { unique := 5 } RequestKind.destroy none =
      ({ s with exited := true }, Dispatch.replied (Context.reply 5 []))) := by
  refine ⟨rfl, by decide, ?_⟩
  exact (C6_exit_semantics _ _ { unique := 5 } none rfl (by decide)).1

/-! ## C5 — retrieve round-trip -/

/-- C5: `notify_retrieve(ino, off, size)` allocates the next value of
the session's own monotone `notify_unique` counter (independent of
kernel request uniques: consecutive allocations are `c` and `c + 1`,
strictly increasing while the counter does not wrap), registers a
one-shot slot for it in the pending-retrieves table before the
NOTIFY_RETRIEVE frame is sent (the `registerSlot` step precedes the
`sendFrame` step in the program-order trace), and when a NOTIFY_REPLY
frame whose header unique equals that notify-unique is processed with
payload `rdata` and offset `roff`, the slot is removed and its awaiter
receives exactly `(roff, rdata)`; a reply keyed to one retrieve leaves
the slot of a distinct concurrent retrieve registered. -/
theorem C5_retrieve_roundtrip (s : Session)
    (ino off size ino2 off2 size2 roff : Nat) (rdata : List Nat)
    (hwrap : s.notify_unique + 1 < 2 ^ 64)
    (hex : s.exited = false)
    (hint : s.notify_unique + 1 ∉ s.interrupted)
    (hnodup : s.notify_remains.Nodup) :
    let r1 := s.notify_retrieve ino off size
    let u1 := r1.2.1
    let r2 := r1.1.notify_retrieve ino2 off2 size2
    let u2 := r2.2.1
    let p := r2.1.process (fun _ s' => s') { unique := u2 }
      (RequestKind.notifyReply { offset := roff, size := size }) (some rdata)
    u1 = s.notify_unique ∧
    u2 = u1 + 1 ∧
    u1 < u2 ∧
    u1 ∈ r1.1.notify_remains ∧
    r1.2.2 = [NotifyAction.alloc u1, NotifyAction.registerSlot u1,
      NotifyAction.sendFrame FUSE_NOTIFY_RETRIEVE
        { notify_unique := u1, nodeid := ino, offset := off, size := size }] ∧
    p.2 = Dispatch.notifyReplyHandled (some (roff, rdata)) ∧
    u2 ∉ p.1.notify_remains ∧
    u1 ∈ p.1.notify_remains := by
  intro r1 u1 r2 u2 p
  have hu1 : u1 = s.notify_unique := rfl
  have hu2 : u2 = (s.notify_unique + 1) % 2 ^ 64 := rfl
  have hu2' : u2 = s.notify_unique + 1 := by rw [hu2, Nat.mod_eq_of_lt hwrap]
  have hmem2 : u2 ∈ r2.1.notify_remains := List.mem_insert_self _ _
  have hstate : p = r2.1.process (fun _ s' => s') { unique := u2 }
      (RequestKind.notifyReply { offset := roff, size := size }) (some rdata) := rfl
  have hproc : p = ({ r2.1 with notify_remains := r2.1.notify_remains.erase u2 },
      Dispatch.notifyReplyHandled (some (roff, rdata))) := by
    rw [hstate]
    simp only [Session.process, Session.send_notify_reply]
    rw [if_neg (by simp [r2, r1, Session.notify_retrieve, hex]),
      if_neg (by simpa [r2, r1, Session.notify_retrieve, hu2'] using hint),
      if_pos hmem2]
  have hnodup2 : r2.1.notify_remains.Nodup := by
    simp only [r2, r1, Session.notify_retrieve]
    exact hnodup.insert.insert
  refine ⟨rfl, hu2', by omega, List.mem_insert_self _ _, rfl, ?_, ?_, ?_⟩
  · rw [hproc]
  · rw [hproc]
    exact hnodup2.not_mem_erase
  · rw [hproc]
    refine (List.mem_erase_of_ne (by omega)).2 ?_
    exact List.mem_insert_of_mem (List.mem_insert_self _ _)

/-- Witness for C5 at a concrete session state. -/
theorem C5_retrieve_roundtrip_witness :
    let s : Session :=
      { proto_major := 7, proto_minor := 31, max_readahead := 4096,
        exited := false, remains := [], interrupted := [],
        notify_unique := 0, notify_remains := [] }
    (s.notify_unique + 1 < 2 ^ 64 ∧ s.exited = false ∧
      s.notify_unique + 1 ∉ s.interrupted ∧ s.notify_remains.Nodup) ∧
    (let r1 := s.notify_retrieve 3 64 512
     let u1 := r1.2.1
     let r2 := r1.1.notify_retrieve 4 0 128
     let u2 := r2.2.1
     let p := r2.1.process (fun _ s' => s') { unique := u2 }
       (RequestKind.notifyReply { offset := 64, size := 512 }) (some [9, 9])
     u1 = s.notify_unique ∧
     u2 = u1 + 1 ∧
     u1 < u2 ∧
     u1 ∈ r1.1.notify_remains ∧
     r1.2.2 = [NotifyAction.alloc u1, NotifyAction.registerSlot u1,
       NotifyAction.sendFrame FUSE_NOTIFY_RETRIEVE
         { notify_unique := u1, nodeid := 3, offset := 64, size := 512 }] ∧
     p.2 = Dispatch.notifyReplyHandled (some (64, [9, 9])) ∧
     u2 ∉ p.1.notify_remains ∧
     u1 ∈ p.1.notify_remains) := by
  refine ⟨⟨by norm_num, rfl, by decide, by decide⟩, ?_⟩
  exact C5_retrieve_roundtrip _ 3 64 512 4 0 128 64 [9, 9]
    (by norm_num) rfl (by decide) (by decide)

/-! ## C7 — size bound on data replies -/

/-- When the true total payload length fits in `u32`, the truncating
`as u32` casts and the `u32` sum in `ReplyData::data_vectored` compute
the exact total. -/
lemma truncated_sum_eq (data : List (List Nat))
    (h : (data.map List.length).sum < 2 ^ 32) :
    ((data.map (fun t => t.length % 2 ^ 32)).sum) % 2 ^ 32 =
      (data.map List.length).sum := by
  have hmap : data.map (fun t => t.length % 2 ^ 32) = data.map List.length := by
    apply List.map_congr_left
    intro t ht
    refine Nat.mod_eq_of_lt (lt_of_le_of_lt ?_ h)
    exact List.single_le_sum (fun x _ => Nat.zero_le x) _ (List.mem_map_of_mem _ ht)
  rw [hmap, Nat.mod_eq_of_lt h]

/-- C7 counterexample: with kernel-requested `size = 10` and one
payload slice of `2^32` bytes (total length `k = 2^32 > 10`), the
truncating `as u32` cast computes length `0 ≤ 10`, so the success
branch is taken; `send_msg` then fails its `u32` frame-length check and
writes nothing — neither the payload nor the claimed ERANGE error
reply is emitted. -/
lemma data_vectored_truncation_overflow (L : List Nat) (h : L.length = 2 ^ 32) :
    ReplyData.data_vectored 10 7 [L] = none := by
  simp only [ReplyData.data_vectored, Context.reply_vectored, send_msg, List.map_cons,
    List.map_nil, List.sum_cons, List.sum_nil, h]
  norm_num

theorem C7_counterexample :
    (2 ^ 32 : Nat) > 10 ∧
    ReplyData.data_vectored 10 7 [List.replicate (2 ^ 32) 0] = none ∧
    Context.reply_err 7 ERANGE ≠ none :=
  ⟨by norm_num, data_vectored_truncation_overflow _ (List.length_replicate _ _), by decide⟩

/-- C7 (amended): for every `ReplyData` with kernel-requested size `S`
(a `u32`) and payload slices of total byte length `k`:
if `k ≤ S` and the framed length `16 + k` fits in `u32`, the payload is
emitted as a success reply; if `S < k < 2^32`, an `ERANGE` error reply
(16-byte header, no payload bytes) is emitted instead.  (For
`k ≥ 2^32` the `u32` length computation truncates and neither needs to
happen — see the counterexample.) -/
theorem C7_reply_size_bound (size unique : Nat) (data : List (List Nat)) :
    ((data.map List.length).sum ≤ size →
      16 + (data.map List.length).sum ≤ 2 ^ 32 - 1 →
      ReplyData.data_vectored size unique data =
        some ((⟨16 + (data.map List.length).sum, 0, unique⟩ : FuseOutHeader).as_bytes
          ++ data.flatten)) ∧
    (size < (data.map List.length).sum → (data.map List.length).sum < 2 ^ 32 →
      ReplyData.data_vectored size unique data = Context.reply_err unique ERANGE ∧
      Context.reply_err unique ERANGE =
        some ((⟨16, -(ERANGE : Int), unique⟩ : FuseOutHeader).as_bytes)) := by
  constructor
  · intro hk hfit
    simp only [ReplyData.data_vectored]
    rw [truncated_sum_eq _ (by omega), if_pos hk]
    simp only [Context.reply_vectored, send_msg]
    rw [if_pos hfit]
  · intro hk hk32
    refine ⟨?_, ?_⟩
    · simp only [ReplyData.data_vectored]
      rw [truncated_sum_eq _ hk32, if_neg (by omega)]
    · simp [Context.reply_err, send_msg]

/-- Witness for C7 (amended): a success reply under the bound and an
ERANGE reply above it. -/
theorem C7_reply_size_bound_witness :
    (([[1, 2], [3]] : List (List Nat)).map List.length).sum ≤ 5 ∧
    ReplyData.data_vectored 5 9 [[1, 2], [3]] =
      some ((⟨16 + (([[1, 2], [3]] : List (List Nat)).map List.length).sum, 0, 9⟩ :
        FuseOutHeader).as_bytes ++ ([[1, 2], [3]] : List (List Nat)).flatten) ∧
    (1 : Nat) < (([[1, 2], [3]] : List (List Nat)).map List.length).sum ∧
    ReplyData.data_vectored 1 9 [[1, 2], [3]] = Context.reply_err 9 ERANGE := by
  refine ⟨by decide, ?_, by decide, ?_⟩
  · exact (C7_reply_size_bound 5 9 [[1, 2], [3]]).1 (by decide) (by decide)
  · exact ((C7_reply_size_bound 1 9 [[1, 2], [3]]).2 (by decide) (by norm_num)).1

/-! ## C8 — Setlk / Flock translation -/

/-- C8: a Setlk request whose `lk_flags` has `FUSE_LK_FLOCK` set is
delivered as `Operation::Flock` with `op = LOCK_SH` for `F_RDLCK`,
`LOCK_EX` for `F_WRLCK`, `LOCK_UN` for `F_UNLCK`, OR-ed with `LOCK_NB`
exactly when the request is non-sleeping; any other lock type invokes
no handler and replies `EIO`; without `FUSE_LK_FLOCK` the request is
delivered as `Operation::Setlk`. -/
theorem C8_setlk_flock_translation (s : Session) (fsE : Operation → Session → Session)
    (header : FuseInHeader) (arg : FuseLkIn) (sleep : Bool)
    (hex : s.exited = false) (hint : header.unique ∉ s.interrupted) :
    (arg.lk_flags &&& FUSE_LK_FLOCK ≠ 0 → arg.lk.typ = F_RDLCK →
      s.process fsE header (RequestKind.setlk arg sleep) none =
        (fsE (Operation.flock header.nodeid arg.fh arg.owner
            (if sleep then LOCK_SH else LOCK_SH ||| LOCK_NB)) s,
          Dispatch.handlerInvoked (Operation.flock header.nodeid arg.fh arg.owner
            (if sleep then LOCK_SH else LOCK_SH ||| LOCK_NB)))) ∧
    (arg.lk_flags &&& FUSE_LK_FLOCK ≠ 0 → arg.lk.typ = F_WRLCK →
      s.process fsE header (RequestKind.setlk arg sleep) none =
        (fsE (Operation.flock header.nodeid arg.fh arg.owner
            (if sleep then LOCK_EX else LOCK_EX ||| LOCK_NB)) s,
          Dispatch.handlerInvoked (Operation.flock header.nodeid arg.fh arg.owner
            (if sleep then LOCK_EX else LOCK_EX ||| LOCK_NB)))) ∧
    (arg.lk_flags &&& FUSE_LK_FLOCK ≠ 0 → arg.lk.typ = F_UNLCK →
      s.process fsE header (RequestKind.setlk arg sleep) none =
        (fsE (Operation.flock header.nodeid arg.fh arg.owner
            (if sleep then LOCK_UN else LOCK_UN ||| LOCK_NB)) s,
          Dispatch.handlerInvoked (Operation.flock header.nodeid arg.fh arg.owner
            (if sleep then LOCK_UN else LOCK_UN ||| LOCK_NB)))) ∧
    (arg.lk_flags &&& FUSE_LK_FLOCK ≠ 0 →
      arg.lk.typ ≠ F_RDLCK → arg.lk.typ ≠ F_WRLCK → arg.lk.typ ≠ F_UNLCK →
      s.process fsE header (RequestKind.setlk arg sleep) none =
        (s, Dispatch.replied (Context.reply_err header.unique EIO))) ∧
    (arg.lk_flags &&& FUSE_LK_FLOCK = 0 →
      s.process fsE header (RequestKind.setlk arg sleep) none =
        (fsE (Operation.setlk header.nodeid arg.fh arg.owner arg.lk sleep) s,
          Dispatch.handlerInvoked
            (Operation.setlk header.nodeid arg.fh arg.owner arg.lk sleep))) := by
  refine ⟨?_, ?_, ?_, ?_, ?_⟩
  · intro hflock htyp
    simp [Session.process, hex, hint, hflock, htyp, F_RDLCK, F_WRLCK, F_UNLCK]
  · intro hflock htyp
    simp [Session.process, hex, hint, hflock, htyp, F_RDLCK, F_WRLCK, F_UNLCK]
  · intro hflock htyp
    simp [Session.process, hex, hint, hflock, htyp, F_RDLCK, F_WRLCK, F_UNLCK]
  · intro hflock h0 h1 h2
    simp [Session.process, hex, hint, hflock, h0, h1, h2]
  · intro hflock
    simp [Session.process, hex, hint, hflock]

/-- Witness for C8 at a concrete non-sleeping FLOCK-flagged Setlk
request with `F_RDLCK`. -/
theorem C8_setlk_flock_translation_witness :
    let s : Session :=
      { proto_major := 7, proto_minor := 31, max_readahead := 4096,
        exited := false, remains := [], interrupted := [],
        notify_unique := 0, notify_remains := [] }
    let arg : FuseLkIn :=
      { fh := 11, owner := 13, lk := { typ := F_RDLCK }, lk_flags := FUSE_LK_FLOCK }
    s.exited = false ∧ (21 : Nat) ∉ s.interrupted ∧
    arg.lk_flags &&& FUSE_LK_FLOCK ≠ 0 ∧ arg.lk.typ = F_RDLCK ∧
    s.process (fun _ s' => s') { unique := 21, nodeid := 2 }
        (RequestKind.setlk arg false) none =
      ((fun (_ : Operation) (s' : Session) => s')
          (Operation.flock 2 11 13 (if false then LOCK_SH else LOCK_SH ||| LOCK_NB)) s,
        Dispatch.handlerInvoked (Operation.flock 2 11 13
          (if false then LOCK_SH else LOCK_SH ||| LOCK_NB))) := by
  refine ⟨rfl, by decide, by decide, rfl, ?_⟩
  exact (C8_setlk_flock_translation _ _ { unique := 21, nodeid := 2 } _ false
    rfl (by decide)).1 (by decide) rfl

/-! ## C10 — attribute validity nanoseconds are dropped -/

/-- C10: every `fuse_attr_out` produced by `ReplyAttr::attr` has
`attr_valid_nsec = 0`, even after `attr_valid(secs, nsecs)` with a
nonzero `nsecs` — only the seconds component is transmitted — whereas
`ReplyEntry::entry` transmits both the seconds and the nanoseconds
components of its two validity timeouts. -/
theorem C10_attr_valid_nsec_dropped (secs nsecs esec ensec asec ansec generation : Nat)
    (a : FuseAttr) (r : ReplyAttr) :
    ((ReplyAttr.new.setAttrValid secs nsecs).attr a).attr_valid = secs ∧
    ((ReplyAttr.new.setAttrValid secs nsecs).attr a).attr_valid_nsec = 0 ∧
    (r.attr a).attr_valid_nsec = 0 ∧
    (((ReplyEntry.new.setEntryValid esec ensec).setAttrValid asec ansec).entry
        a generation).entry_valid = esec ∧
    (((ReplyEntry.new.setEntryValid esec ensec).setAttrValid asec ansec).entry
        a generation).entry_valid_nsec = ensec ∧
    (((ReplyEntry.new.setEntryValid esec ensec).setAttrValid asec ansec).entry
        a generation).attr_valid = asec ∧
    (((ReplyEntry.new.setEntryValid esec ensec).setAttrValid asec ansec).entry
        a generation).attr_valid_nsec = ansec :=
  ⟨rfl, rfl, rfl, rfl, rfl, rfl, rfl⟩

end FuseAsync
